import Mathlib

/-!
Verification of the LicenseChain Node.js SDK core logic.

This file shallowly embeds the decision logic of the SDK:
 - the webhook signature verifier (src/webhook-verifier.ts),
 - the free-standing webhook signature helpers (src/types.ts) and the
   webhook handler (src/webhook-handler.ts),
 - the license validator (src/license-validator.ts).

Modelling conventions:
 - Node `Buffer` values are `List Nat` of bytes; `Buffer.from(s, 'hex')`
   decodes hex pairs left to right and stops at the first invalid pair,
   dropping a trailing odd character (`hexDecodeAux`).
 - HMAC-SHA256 is an external crypto primitive (`crypto.createHmac`); the
   design treats the MAC function as an injectable collaborator, so every
   definition takes the digest function `hmac : String → String → List Nat`
   (secret, payload ↦ raw 32-byte digest) as a parameter.  `.digest('hex')`
   is `hexEncode` of those bytes (lowercase, as Node produces).
 - JavaScript exceptions become `Except` errors; `crypto.timingSafeEqual`
   raises `RangeError` when the two buffers differ in length.
 - Instants are integer Unix milliseconds; `new Date(s).getTime()` is a
   parameter `parse : String → Option Int`, `none` standing for the `NaN`
   of an unparseable date.  Every JS comparison with `NaN` is false, which
   the `Option` match reproduces.
-/

namespace LicenseChain

/-- Error channel: JavaScript / SDK exceptions that the modelled code can
raise. -/
inductive JsError where
  | rangeError
  | webhookVerification
  | validationException
  deriving DecidableEq

/-- Value of a single hex digit, as Node's hex decoder accepts it
(both cases), or `none` for a non-hex character. -/
def hexVal (c : Char) : Option Nat :=
  if 'a' ≤ c ∧ c ≤ 'f' then some (c.toNat - 'a'.toNat + 10)
  else if 'A' ≤ c ∧ c ≤ 'F' then some (c.toNat - 'A'.toNat + 10)
  else if '0' ≤ c ∧ c ≤ '9' then some (c.toNat - '0'.toNat)
  else none

/-- `Buffer.from(string, 'hex')` on the character list: decode complete hex
pairs left to right, stopping at the first invalid pair; a trailing lone
character is dropped. -/
def hexDecodeAux : List Char → List Nat
  | c1 :: c2 :: rest =>
    match hexVal c1, hexVal c2 with
    | some h, some l => (16 * h + l) :: hexDecodeAux rest
    | _, _ => []
  | _ => []

/-- `Buffer.from(s, 'hex')`. -/
def bufferFromHex (s : String) : List Nat :=
  hexDecodeAux s.data

/-- Lowercase hex digit for a value below 16. -/
def hexDigit (n : Nat) : Char :=
  if n < 10 then Char.ofNat ('0'.toNat + n)
  else if n < 16 then Char.ofNat ('a'.toNat + n - 10)
  else '0'

/-- Byte list to lowercase hex characters, two per byte. -/
def hexEncodeAux : List Nat → List Char
  | [] => []
  | b :: rest => hexDigit (b / 16) :: hexDigit (b % 16) :: hexEncodeAux rest

/-- `.digest('hex')` applied to raw digest bytes. -/
def hexEncode (bs : List Nat) : String :=
  ⟨hexEncodeAux bs⟩

/-- `crypto.timingSafeEqual(a, b)`: throws `RangeError` when the buffers
differ in length, otherwise compares them. -/
def timingSafeEqual (a b : List Nat) : Except JsError Bool :=
  if a.length = b.length then .ok (a == b) else .error .rangeError

/-- `WebhookVerifier.compareSignatures`: different string lengths give
`false` at once; otherwise both strings are hex-decoded and handed to
`timingSafeEqual`. -/
def compareSignatures (signature1 signature2 : String) : Except JsError Bool :=
  if signature1.length ≠ signature2.length then .ok false
  else timingSafeEqual (bufferFromHex signature1) (bufferFromHex signature2)

/-- `WebhookVerifier.generateSignature`: bare lowercase hex of the
HMAC-SHA256 digest. -/
def generateSignature (hmac : String → String → List Nat)
    (secret payload : String) : String :=
  hexEncode (hmac secret payload)

/-- `WebhookVerifier.createSignature`: the `sha256=`-prefixed hex digest. -/
def createSignature (hmac : String → String → List Nat)
    (secret payload : String) : String :=
  "sha256=" ++ generateSignature hmac secret payload

/-- `WebhookVerifier.verify`: compare the candidate against the bare hex
expected signature; any error raised inside is rethrown as a
`WebhookVerificationException`. -/
def verify (hmac : String → String → List Nat)
    (secret payload signature : String) : Except JsError Bool :=
  match compareSignatures signature (generateSignature hmac secret payload) with
  | .ok b => .ok b
  | .error _ => .error .webhookVerification

/-- `createWebhookSignature` (src/types.ts): bare hex digest, no prefix. -/
def createWebhookSignature (hmac : String → String → List Nat)
    (payload secret : String) : String :=
  hexEncode (hmac secret payload)

/-- `verifyWebhookSignature` (src/types.ts): hex-decode both strings and
call `timingSafeEqual` directly — no length pre-check, so a length
mismatch surfaces as the `RangeError` of `timingSafeEqual`. -/
def verifyWebhookSignature (hmac : String → String → List Nat)
    (payload signature secret : String) : Except JsError Bool :=
  timingSafeEqual (bufferFromHex signature)
    (bufferFromHex (createWebhookSignature hmac payload secret))

/-- `WebhookHandler.verifySignature`: delegates to `verifyWebhookSignature`. -/
def handlerVerifySignature (hmac : String → String → List Nat)
    (secret payload signature : String) : Except JsError Bool :=
  verifyWebhookSignature hmac payload signature secret

/-- A concrete deterministic stand-in digest function used only to
instantiate witnesses; it has the shape of a real HMAC-SHA256 digest
(32 bytes, each below 256). -/
def mockHmac (secret payload : String) : List Nat :=
  (List.range 32).map (fun i => (secret.length * 7 + payload.length * 13 + i * 31) % 256)

/-- Usage counters of a license record (src/types.ts, `LicenseData.usage`). -/
structure Usage where
  totalValidations : Int
  lastValidated : String
  maxValidations : Int
  deriving DecidableEq

/-- One entry of a license's bound-hardware list (src/types.ts,
`LicenseData.hardware`). -/
structure HardwareBinding where
  id : String
  fingerprint : String
  name : String
  lastSeen : String
  deriving DecidableEq

/-- The fields of `LicenseData` (src/types.ts) that the validator reads.
`expiresAt` is the parsed instant of the ISO string: `none` models an
absent / falsy value (lifetime license). -/
structure LicenseData where
  id : String
  status : String
  expiresAt : Option Int
  features : List String
  usage : Usage
  hardware : List HardwareBinding
  deriving DecidableEq

/-- `ValidationResult` (src/types.ts) as the validator builds it. -/
structure ValidationResult where
  valid : Bool
  message : String
  licenseId : Option String := none
  expiresAt : Option Int := none
  features : Option (List String) := none
  usage : Option Usage := none
  deriving DecidableEq

/-- The fatal conditions the validator throws
(LicenseSuspendedException, LicenseExpiredException,
HardwareLimitExceededException, ValidationLimitExceededException). -/
inductive ValidatorError where
  | licenseSuspended
  | licenseExpired
  | hardwareLimitExceeded
  | validationLimitExceeded
  deriving DecidableEq

/-- `LicenseValidator.isValidLicenseKeyFormat`: the regex
`LC-` followed by three dash-separated groups of eight uppercase
alphanumeric characters. -/
def isUpperAlnum (c : Char) : Bool :=
  (decide ('A' ≤ c) && decide (c ≤ 'Z')) || (decide ('0' ≤ c) && decide (c ≤ '9'))

/-- One eight-character uppercase alphanumeric group. -/
def groupOk (cs : List Char) : Bool :=
  cs.length == 8 && cs.all isUpperAlnum

/-- The full key format check. -/
def isValidLicenseKeyFormat (s : String) : Bool :=
  match s.data with
  | 'L' :: 'C' :: '-' :: rest =>
    groupOk (rest.take 8) && (rest.drop 8).headD ' ' == '-' &&
    groupOk ((rest.drop 9).take 8) && (rest.drop 17).headD ' ' == '-' &&
    groupOk ((rest.drop 18).take 8) && rest.drop 26 == []
  | _ => false

/-- `LicenseValidator.isLicenseExpired`: a missing `expiresAt` means a
lifetime license; otherwise expired exactly when `now` is strictly past
the expiry instant.  (An unparseable date gives `NaN`, on which `>` is
false, the same as the `none` branch.) -/
def isLicenseExpired (now : Int) (license : LicenseData) : Bool :=
  match license.expiresAt with
  | none => false
  | some e => decide (e < now)

/-- `LicenseValidator.isHardwareAllowed`: an empty list means no
restriction; a registered fingerprint is always allowed; otherwise a new
binding is admitted while the list is below the default limit of 5. -/
def isHardwareAllowed (license : LicenseData) (hardwareId : String) : Bool :=
  if license.hardware.isEmpty then true
  else if license.hardware.any (fun hw => hw.fingerprint == hardwareId) then true
  else decide (license.hardware.length < 5)

/-- `LicenseValidator.isValidationLimitExceeded`: `-1` means unlimited;
otherwise exceeded when the count has reached the maximum. -/
def isValidationLimitExceeded (license : LicenseData) : Bool :=
  if license.usage.maxValidations = -1 then false
  else decide (license.usage.totalValidations ≥ license.usage.maxValidations)

/-- The in-place mutation of `existingHardware.lastSeen` on the first
binding whose fingerprint matches (`Array.prototype.find`). -/
def refreshLastSeen (nowIso hardwareId : String) :
    List HardwareBinding → List HardwareBinding
  | [] => []
  | hw :: rest =>
    if hw.fingerprint == hardwareId then { hw with lastSeen := nowIso } :: rest
    else hw :: refreshLastSeen nowIso hardwareId rest

/-- The usage object `updateUsageStatistics` builds for persistence:
validation count incremented, `lastValidated` stamped. -/
def updatedUsageOf (nowIso : String) (license : LicenseData) : Usage :=
  { license.usage with
    totalValidations := license.usage.totalValidations + 1
    lastValidated := nowIso }

/-- The state of `license.hardware` after `updateUsageStatistics` ran:
unchanged without a fingerprint; with one, the first matching binding has
its `lastSeen` refreshed, or a fresh binding is pushed. -/
def updatedHardwareList (nowIso newId : String) (license : LicenseData) :
    Option String → List HardwareBinding
  | none => license.hardware
  | some hid =>
    if license.hardware.any (fun hw => hw.fingerprint == hid) then
      refreshLastSeen nowIso hid license.hardware
    else
      license.hardware ++ [⟨newId, hid, "Unknown Device", nowIso⟩]

/-- `LicenseValidator.updateUsageStatistics`: increments the validation
count, stamps `lastValidated`, refreshes or appends the hardware binding
in memory, then calls `client.updateLicense`; a failure of that call is
caught and logged as a warning (returned here as the optional warning
string), never rethrown — the in-memory hardware update survives either
way.  `nowIso` is the current instant's ISO string and `newId` the
`crypto.randomUUID()` value for a fresh binding. -/
def updateUsageStatistics (nowIso newId : String)
    (updateLicense : Usage → List HardwareBinding → Except String Unit)
    (license : LicenseData) (hardwareId : Option String) :
    List HardwareBinding × Option String :=
  let updatedHardware := updatedHardwareList nowIso newId license hardwareId
  (updatedHardware,
    match updateLicense (updatedUsageOf nowIso license) updatedHardware with
    | .ok _ => none
    | .error e => some ("Failed to update usage statistics: " ++ e))

/-- The guard `hardwareId && !this.isHardwareAllowed(license, hardwareId)`
of `performValidation`: a supplied fingerprint that the hardware check
rejects. -/
def hardwareBlocked (license : LicenseData) : Option String → Bool
  | some hid => !isHardwareAllowed license hid
  | none => false

/-- `LicenseValidator.performValidation`.  The `ok` value carries the
verdict, the hardware list after the in-memory update (`none` on paths
where `updateUsageStatistics` never ran), and the swallowed persistence
warning, if any. -/
def performValidation (now : Int) (nowIso newId : String)
    (updateLicense : Usage → List HardwareBinding → Except String Unit)
    (license? : Option LicenseData) (hardwareId : Option String) :
    Except ValidatorError
      (ValidationResult × Option (List HardwareBinding) × Option String) :=
  match license? with
  | none => .ok ({ valid := false, message := "License not found" }, none, none)
  | some license =>
    if license.status = "suspended" then
      .error .licenseSuspended
    else if license.status = "cancelled" then
      .ok ({ valid := false, message := "License has been cancelled" }, none, none)
    else if license.status = "expired" ∨ isLicenseExpired now license then
      .error .licenseExpired
    else if hardwareBlocked license hardwareId then
      .error .hardwareLimitExceeded
    else if isValidationLimitExceeded license then
      .error .validationLimitExceeded
    else
      let upd := updateUsageStatistics nowIso newId updateLicense license hardwareId
      .ok ({ valid := true
             message := "License is valid and active"
             licenseId := some license.id
             expiresAt := license.expiresAt
             features := some license.features
             usage := some license.usage }, some upd.1, upd.2)

/-- `LicenseValidator.validate`: rejects a malformed key with a soft
verdict, then fetches the record (`getLicense`, `none` = not found) and
runs `performValidation`; the fatal conditions it throws are
`LicenseChainException` subclasses and are rethrown unchanged by the
surrounding catch. -/
def validate (now : Int) (nowIso newId : String)
    (updateLicense : Usage → List HardwareBinding → Except String Unit)
    (getLicense : String → Option LicenseData)
    (licenseKey : String) (hardwareId : Option String) :
    Except ValidatorError
      (ValidationResult × Option (List HardwareBinding) × Option String) :=
  if !isValidLicenseKeyFormat licenseKey then
    .ok ({ valid := false, message := "Invalid license key format" }, none, none)
  else
    performValidation now nowIso newId updateLicense (getLicense licenseKey) hardwareId

/-- A webhook envelope as the verifier reads it: `event` is falsy exactly
when empty, `hasData` is the truthiness of the `data` field, and
`timestamp` is the raw string. -/
structure WebhookData where
  event : String
  hasData : Bool
  timestamp : String
  deriving DecidableEq

/-- `WebhookHandler.verifyTimestamp` (tolerance in seconds, default 300):
the age is `|now − webhookTime| / 1000` seconds; past the tolerance a
`ValidationException` is thrown (the internal throw is caught and
rethrown, still as a `ValidationException`).  An unparseable timestamp
(`parse _ = none`) gives `NaN`, every comparison with which is false, so
the check passes. -/
def verifyTimestamp (parse : String → Option Int) (tolerance : Rat)
    (now : Int) (timestamp : String) : Except JsError Unit :=
  match parse timestamp with
  | none => .ok ()
  | some t =>
    if ((|now - t| : Int) : Rat) / 1000 > tolerance then .error .validationException
    else .ok ()

/-- `WebhookVerifier.verifyWebhookData`: requires the `event`, `data` and
`timestamp` fields to be truthy, then rejects a timestamp further than
five minutes (in milliseconds) from now; an unparseable timestamp gives a
`NaN` difference, the `>` comparison is false, and the data is accepted. -/
def verifyWebhookData (parse : String → Option Int) (now : Int)
    (wd : WebhookData) : Bool :=
  if wd.event == "" || !wd.hasData || wd.timestamp == "" then false
  else
    match parse wd.timestamp with
    | none => true
    | some t => if |now - t| > 5 * 60 * 1000 then false else true

/-- Drop the persistence warning from a validation outcome, keeping the
verdict and the updated hardware state. -/
def withoutWarning
    (r : Except ValidatorError
      (ValidationResult × Option (List HardwareBinding) × Option String)) :
    Except ValidatorError (ValidationResult × Option (List HardwareBinding)) :=
  r.map (fun o => (o.1, o.2.1))

/-- A concrete date-parsing collaborator used only to instantiate
witnesses: a few named timestamps relative to `now = 0`. -/
def parseFixed : String → Option Int := fun s =>
  if s = "age299" then some (-(299 * 1000))
  else if s = "age301" then some (-(301 * 1000))
  else if s = "age400" then some (-(400 * 1000))
  else if s = "not-a-date" then none
  else some 0

/- ## Helper lemmas -/

theorem hexEncodeAux_length (bs : List Nat) :
    (hexEncodeAux bs).length = 2 * bs.length := by
  induction bs with
  | nil => rfl
  | cons b rest ih => simp [hexEncodeAux, ih]; ring

theorem hexEncode_length (bs : List Nat) :
    (hexEncode bs).length = 2 * bs.length := by
  simp [hexEncode, String.length, hexEncodeAux_length]

theorem hexVal_hexDigit (n : Nat) (h : n < 16) :
    hexVal (hexDigit n) = some n := by
  revert h
  revert n
  decide

theorem hexVal_hexDigit_isSome (n : Nat) : (hexVal (hexDigit n)).isSome := by
  rcases lt_or_ge n 16 with h | h
  · rw [hexVal_hexDigit n h]; rfl
  · have : hexDigit n = '0' := by
      unfold hexDigit
      rw [if_neg (by omega), if_neg (by omega)]
    rw [this]; decide

theorem hexDecodeAux_hexEncodeAux (bs : List Nat) (h : ∀ b ∈ bs, b < 256) :
    hexDecodeAux (hexEncodeAux bs) = bs := by
  induction bs with
  | nil => rfl
  | cons b rest ih =>
    have hb : b < 256 := h b (List.mem_cons_self b rest)
    have h1 : b / 16 < 16 := Nat.div_lt_of_lt_mul hb
    have h2 : b % 16 < 16 := Nat.mod_lt _ (by norm_num)
    have hrest : ∀ x ∈ rest, x < 256 := fun x hx => h x (List.mem_cons_of_mem _ hx)
    simp [hexEncodeAux, hexDecodeAux, hexVal_hexDigit _ h1, hexVal_hexDigit _ h2,
      ih hrest]
    omega

theorem bufferFromHex_hexEncode (bs : List Nat) (h : ∀ b ∈ bs, b < 256) :
    bufferFromHex (hexEncode bs) = bs := by
  simp [bufferFromHex, hexEncode, hexDecodeAux_hexEncodeAux bs h]

theorem hexDecodeAux_hexEncodeAux_length (bs : List Nat) :
    (hexDecodeAux (hexEncodeAux bs)).length = bs.length := by
  induction bs with
  | nil => rfl
  | cons b rest ih =>
    have h1 := hexVal_hexDigit_isSome (b / 16)
    have h2 := hexVal_hexDigit_isSome (b % 16)
    rcases Option.isSome_iff_exists.mp h1 with ⟨x, hx⟩
    rcases Option.isSome_iff_exists.mp h2 with ⟨y, hy⟩
    simp [hexEncodeAux, hexDecodeAux, hx, hy, ih]

theorem bufferFromHex_hexEncode_length (bs : List Nat) :
    (bufferFromHex (hexEncode bs)).length = bs.length := by
  simp [bufferFromHex, hexEncode, hexDecodeAux_hexEncodeAux_length]

theorem compareSignatures_self (s : String) : compareSignatures s s = .ok true := by
  simp [compareSignatures, timingSafeEqual]

theorem refreshLastSeen_length (nowIso hid : String) (l : List HardwareBinding) :
    (refreshLastSeen nowIso hid l).length = l.length := by
  induction l with
  | nil => rfl
  | cons hw rest ih =>
    by_cases h : hw.fingerprint == hid
    · simp [refreshLastSeen, h]
    · simp [refreshLastSeen, h, ih]

theorem refreshLastSeen_fields (nowIso hid : String) (l : List HardwareBinding) :
    (refreshLastSeen nowIso hid l).map (fun hw => (hw.id, hw.fingerprint, hw.name))
      = l.map (fun hw => (hw.id, hw.fingerprint, hw.name)) := by
  induction l with
  | nil => rfl
  | cons hw rest ih =>
    by_cases h : hw.fingerprint == hid
    · simp [refreshLastSeen, h]
    · simp [refreshLastSeen, h, ih]

theorem div1000_gt_iff (d : Int) (tol : Rat) :
    ((d : Rat) / 1000 > tol) ↔ ((d : Rat) > tol * 1000) := by
  rw [gt_iff_lt, lt_div_iff₀ (by norm_num : (0 : Rat) < 1000)]

theorem isLicenseExpired_iff (now : Int) (license : LicenseData) :
    isLicenseExpired now license = true ↔
      ∃ e, license.expiresAt = some e ∧ e < now := by
  unfold isLicenseExpired
  cases h : license.expiresAt with
  | none => simp
  | some e => simp

/-- On the success path every check is negative and the outcome is the
success verdict together with the in-memory hardware update and the
swallowed persistence warning. -/
theorem performValidation_success (now : Int) (nowIso newId : String)
    (updateLicense : Usage → List HardwareBinding → Except String Unit)
    (license : LicenseData) (hardwareId : Option String)
    (h1 : license.status ≠ "suspended") (h2 : license.status ≠ "cancelled")
    (h3 : license.status ≠ "expired") (h4 : isLicenseExpired now license = false)
    (h5 : ∀ hid, hardwareId = some hid → isHardwareAllowed license hid = true)
    (h6 : isValidationLimitExceeded license = false) :
    performValidation now nowIso newId updateLicense (some license) hardwareId
      = .ok ({ valid := true
               message := "License is valid and active"
               licenseId := some license.id
               expiresAt := license.expiresAt
               features := some license.features
               usage := some license.usage },
             some (updatedHardwareList nowIso newId license hardwareId),
             (updateUsageStatistics nowIso newId updateLicense license hardwareId).2) := by
  have hw : hardwareBlocked license hardwareId = false := by
    cases hid : hardwareId with
    | none => simp [hardwareBlocked]
    | some h => simp [hardwareBlocked, h5 h hid]
  simp only [performValidation]
  rw [if_neg h1, if_neg h2, if_neg (by simp [h3, h4]), if_neg (by simp [hw]),
    if_neg (by simp [h6])]
  rfl

/- ## Claim theorems -/

/-- Claim C1, counterexample: with a digest collaborator of the real shape,
`verify(payload, createSignature(payload))` returns `false`, not `true` —
`createSignature` emits the `sha256=`-prefixed form, which
`compareSignatures` rejects on string length, and no internal
normalization exists. -/
theorem C1_roundtrip_counterexample :
    verify mockHmac "secret" "payload"
        (createSignature mockHmac "secret" "payload") = .ok false ∧
    (Except.ok false : Except JsError Bool) ≠ .ok true :=
  ⟨rfl, by simp⟩

/-- Claim C1 (amended): `createSignature` emits the `sha256=` prefix but
`verify` never strips it, so the round trip through `createSignature`
returns `false` for every payload and secret (the prefixed string is
longer than the bare 64-character digest); `verify` accepts exactly the
bare hex form: the round trip through `generateSignature` returns `true`,
and a verifier whose secret or payload produces a different digest
rejects the bare signature. -/
theorem C1_verify_accepts_only_bare_hex
    (hmac : String → String → List Nat) (secret payload secret' payload' : String)
    (hlen : (hmac secret' payload').length = (hmac secret payload).length)
    (hb : ∀ b ∈ hmac secret payload, b < 256)
    (hb' : ∀ b ∈ hmac secret' payload', b < 256)
    (hdiff : hmac secret' payload' ≠ hmac secret payload) :
    verify hmac secret payload (createSignature hmac secret payload) = .ok false ∧
    verify hmac secret payload (generateSignature hmac secret payload) = .ok true ∧
    verify hmac secret' payload' (generateSignature hmac secret payload) = .ok false := by
  have h7 : ("sha256=" : String).length = 7 := rfl
  have hne : (createSignature hmac secret payload).length
      ≠ (generateSignature hmac secret payload).length := by
    rw [createSignature, String.length_append, h7]
    omega
  have hc1 : compareSignatures (createSignature hmac secret payload)
      (generateSignature hmac secret payload) = .ok false := by
    unfold compareSignatures
    rw [if_pos hne]
  have hl3 : (generateSignature hmac secret payload).length
      = (generateSignature hmac secret' payload').length := by
    simp [generateSignature, hexEncode_length, hlen]
  have hc3 : compareSignatures (generateSignature hmac secret payload)
      (generateSignature hmac secret' payload') = .ok false := by
    unfold compareSignatures
    rw [if_neg (by simp [hl3])]
    unfold generateSignature
    rw [bufferFromHex_hexEncode _ hb, bufferFromHex_hexEncode _ hb']
    unfold timingSafeEqual
    rw [if_pos hlen.symm]
    simp only [Except.ok.injEq, beq_eq_false_iff_ne]
    exact fun h => hdiff h.symm
  refine ⟨?_, ?_, ?_⟩
  · unfold verify
    rw [hc1]
  · unfold verify
    rw [compareSignatures_self]
  · unfold verify
    rw [hc3]

/-- Witness for C1 (amended): the statement instantiated with the concrete
stand-in digest, mutating the secret from "a" to "aa". -/
theorem C1_verify_accepts_only_bare_hex_witness :
    verify mockHmac "a" "b" (createSignature mockHmac "a" "b") = .ok false ∧
    verify mockHmac "a" "b" (generateSignature mockHmac "a" "b") = .ok true ∧
    verify mockHmac "aa" "b" (generateSignature mockHmac "a" "b") = .ok false :=
  C1_verify_accepts_only_bare_hex mockHmac "a" "b" "aa" "b"
    (by decide) (by decide) (by decide) (by decide)

/-- Claim C2: a suspended license raises `LicenseSuspended` before any
expiry evaluation; whatever `expiresAt` holds, the verdict is never
`LicenseExpired`. -/
theorem C2_suspended_precedes_expiry (now : Int) (nowIso newId : String)
    (updateLicense : Usage → List HardwareBinding → Except String Unit)
    (license : LicenseData) (hardwareId : Option String)
    (h : license.status = "suspended") :
    performValidation now nowIso newId updateLicense (some license) hardwareId
      = .error .licenseSuspended ∧
    performValidation now nowIso newId updateLicense (some license) hardwareId
      ≠ .error .licenseExpired := by
  have hs : performValidation now nowIso newId updateLicense (some license) hardwareId
      = .error .licenseSuspended := by
    simp only [performValidation]
    rw [if_pos h]
  refine ⟨hs, ?_⟩
  rw [hs]
  simp

/-- Witness for C2: a record both suspended and past its expiry instant
raises `LicenseSuspended`, not `LicenseExpired`. -/
theorem C2_suspended_precedes_expiry_witness :
    performValidation 1000 "2024-01-01" "uuid-1" (fun _ _ => .ok ())
        (some ⟨"L1", "suspended", some 0, [], ⟨0, "", -1⟩, []⟩) none
      = .error .licenseSuspended ∧
    performValidation 1000 "2024-01-01" "uuid-1" (fun _ _ => .ok ())
        (some ⟨"L1", "suspended", some 0, [], ⟨0, "", -1⟩, []⟩) none
      ≠ .error .licenseExpired :=
  C2_suspended_precedes_expiry 1000 "2024-01-01" "uuid-1" _ _ none rfl

/-- Claim C6: when the key is well-formed but the lookup yields no record,
`validate` returns the soft-invalid verdict "License not found", raising
no fatal condition. -/
theorem C6_not_found_soft (now : Int) (nowIso newId : String)
    (updateLicense : Usage → List HardwareBinding → Except String Unit)
    (getLicense : String → Option LicenseData)
    (licenseKey : String) (hardwareId : Option String)
    (hkey : isValidLicenseKeyFormat licenseKey = true)
    (hget : getLicense licenseKey = none) :
    validate now nowIso newId updateLicense getLicense licenseKey hardwareId
      = .ok ({ valid := false, message := "License not found" }, none, none) := by
  simp [validate, hkey, hget, performValidation]

/-- Witness for C6: the spec's example key with an empty lookup. -/
theorem C6_not_found_soft_witness :
    validate 0 "iso" "uuid-1" (fun _ _ => .ok ()) (fun _ => none)
        "LC-ABCDEFGH-12345678-ZZZZZZZZ" none
      = .ok ({ valid := false, message := "License not found" }, none, none) :=
  C6_not_found_soft 0 "iso" "uuid-1" _ _ _ none (by decide) rfl

/-- Claim C4, counterexample: a record simultaneously suspended and past
its expiry instant satisfies the claim's expiry condition (`expiresAt`
present, `now` strictly after it) yet validation raises
`LicenseSuspended`, not `LicenseExpired`: the claimed unconditional "iff"
fails for non-active statuses. -/
theorem C4_counterexample :
    performValidation 2000 "2024-02-01" "uuid-2" (fun _ _ => .ok ())
        (some ⟨"L9", "suspended", some 5, [], ⟨3, "", -1⟩, []⟩) none
      = .error .licenseSuspended ∧
    (Except.error ValidatorError.licenseSuspended :
        Except ValidatorError
          (ValidationResult × Option (List HardwareBinding) × Option String))
      ≠ .error .licenseExpired ∧
    (5 : Int) < 2000 :=
  ⟨rfl, by simp, by decide⟩

/-- Claim C4 (amended): for a record whose status is neither "suspended"
nor "cancelled", validation raises `LicenseExpired` iff
`status = "expired"` or `expiresAt` is present and `now` strictly after
it; an `expiresAt` equal to `now` is not expired, one instant past is,
and a record without `expiresAt` is never expired. -/
theorem C4_expiry_rule (now : Int) (nowIso newId : String)
    (updateLicense : Usage → List HardwareBinding → Except String Unit)
    (license : LicenseData) (hardwareId : Option String)
    (h1 : license.status ≠ "suspended") (h2 : license.status ≠ "cancelled") :
    (performValidation now nowIso newId updateLicense (some license) hardwareId
        = .error .licenseExpired
      ↔ license.status = "expired" ∨ ∃ e, license.expiresAt = some e ∧ e < now) ∧
    (license.expiresAt = some now → license.status ≠ "expired" →
      performValidation now nowIso newId updateLicense (some license) hardwareId
        ≠ .error .licenseExpired) ∧
    (license.expiresAt = some (now - 1) →
      performValidation now nowIso newId updateLicense (some license) hardwareId
        = .error .licenseExpired) ∧
    (license.expiresAt = none → license.status ≠ "expired" →
      performValidation now nowIso newId updateLicense (some license) hardwareId
        ≠ .error .licenseExpired) := by
  have main : performValidation now nowIso newId updateLicense (some license) hardwareId
      = .error .licenseExpired
      ↔ license.status = "expired" ∨ ∃ e, license.expiresAt = some e ∧ e < now := by
    simp only [performValidation]
    rw [if_neg h1, if_neg h2]
    by_cases hexp : license.status = "expired" ∨ isLicenseExpired now license = true
    · rw [if_pos hexp, isLicenseExpired_iff] at *
      simp [hexp]
    · rw [if_neg hexp]
      rw [isLicenseExpired_iff] at hexp
      constructor
      · intro h
        exfalso
        revert h
        split
        · simp
        · split
          · simp
          · simp
      · intro h
        exact absurd h hexp
  refine ⟨main, ?_, ?_, ?_⟩
  · intro he hst
    rw [Ne, main]
    rintro (h | ⟨e, hee, hlt⟩)
    · exact hst h
    · rw [he] at hee
      obtain rfl : now = e := by simpa using hee
      exact absurd hlt (lt_irrefl now)
  · intro he
    rw [main]
    exact Or.inr ⟨now - 1, he, by omega⟩
  · intro he hst
    rw [Ne, main]
    rintro (h | ⟨e, hee, _⟩)
    · exact hst h
    · rw [he] at hee
      cases hee

/-- Witness for C4 (amended): an active record one instant past expiry
raises `LicenseExpired`; the same record evaluated exactly at its expiry
instant does not. -/
theorem C4_expiry_rule_witness :
    performValidation 1000 "iso" "uuid-3" (fun _ _ => .ok ())
        (some ⟨"L2", "active", some 500, [], ⟨0, "", -1⟩, []⟩) none
      = .error .licenseExpired ∧
    performValidation 500 "iso" "uuid-3" (fun _ _ => .ok ())
        (some ⟨"L2", "active", some 500, [], ⟨0, "", -1⟩, []⟩) none
      ≠ .error .licenseExpired :=
  ⟨(C4_expiry_rule 1000 "iso" "uuid-3" _ _ none (by decide) (by decide)).1.mpr
      (Or.inr ⟨500, rfl, by decide⟩),
   (C4_expiry_rule 500 "iso" "uuid-3" _ _ none (by decide) (by decide)).2.1 rfl
      (by decide)⟩

/-- Claim C5: the quota check fires exactly when `maxValidations ≠ -1` and
`totalValidations ≥ maxValidations`; reaching the maximum exactly fails,
`-1` never fails; on a record passing every earlier check,
`performValidation` raises `ValidationLimitExceeded` under exactly that
condition. -/
theorem C5_quota_rule (now : Int) (nowIso newId : String)
    (updateLicense : Usage → List HardwareBinding → Except String Unit)
    (license : LicenseData) (hardwareId : Option String)
    (h1 : license.status ≠ "suspended") (h2 : license.status ≠ "cancelled")
    (h3 : license.status ≠ "expired") (h4 : isLicenseExpired now license = false)
    (h5 : ∀ hid, hardwareId = some hid → isHardwareAllowed license hid = true) :
    (isValidationLimitExceeded license = true ↔
      license.usage.maxValidations ≠ -1 ∧
      license.usage.maxValidations ≤ license.usage.totalValidations) ∧
    (performValidation now nowIso newId updateLicense (some license) hardwareId
        = .error .validationLimitExceeded ↔
      license.usage.maxValidations ≠ -1 ∧
      license.usage.maxValidations ≤ license.usage.totalValidations) ∧
    (license.usage.maxValidations = -1 → isValidationLimitExceeded license = false) ∧
    (license.usage.totalValidations = license.usage.maxValidations →
      license.usage.maxValidations ≠ -1 → isValidationLimitExceeded license = true) := by
  have hq : isValidationLimitExceeded license = true ↔
      license.usage.maxValidations ≠ -1 ∧
      license.usage.maxValidations ≤ license.usage.totalValidations := by
    unfold isValidationLimitExceeded
    by_cases hm : license.usage.maxValidations = -1
    · simp [hm]
    · simp [hm]
  have hw : hardwareBlocked license hardwareId = false := by
    cases hid : hardwareId with
    | none => simp [hardwareBlocked]
    | some h => simp [hardwareBlocked, h5 h hid]
  have hp : performValidation now nowIso newId updateLicense (some license) hardwareId
      = .error .validationLimitExceeded ↔ isValidationLimitExceeded license = true := by
    simp only [performValidation]
    rw [if_neg h1, if_neg h2, if_neg (by simp [h3, h4]), if_neg (by simp [hw])]
    by_cases hq' : isValidationLimitExceeded license = true
    · rw [if_pos hq']
      simp [hq']
    · rw [if_neg hq']
      simp [hq']
  refine ⟨hq, hp.trans hq, fun hm => by simp [isValidationLimitExceeded, hm],
    fun ht hm => hq.mpr ⟨hm, by rw [ht]⟩⟩

/-- Witness for C5: `totalValidations = maxValidations = 10` raises
`ValidationLimitExceeded`; `maxValidations = -1` never fails even at 999
validations. -/
theorem C5_quota_rule_witness :
    performValidation 0 "iso" "uuid-4" (fun _ _ => .ok ())
        (some ⟨"L3", "active", none, [], ⟨10, "", 10⟩, []⟩) none
      = .error .validationLimitExceeded ∧
    isValidationLimitExceeded ⟨"L3", "active", none, [], ⟨999, "", -1⟩, []⟩ = false :=
  ⟨((C5_quota_rule 0 "iso" "uuid-4" (fun _ _ => .ok ())
      ⟨"L3", "active", none, [], ⟨10, "", 10⟩, []⟩ none (by decide) (by decide)
      (by decide) (by decide) (fun _ h => by cases h)).2.1).mpr ⟨by decide, by decide⟩,
   (C5_quota_rule 0 "iso" "uuid-4" (fun _ _ => .ok ())
      ⟨"L3", "active", none, [], ⟨999, "", -1⟩, []⟩ none (by decide) (by decide)
      (by decide) (by decide) (fun _ h => by cases h)).2.2.1 rfl⟩

/-- Claim C8: once every check passes, a failing `client.updateLicense`
does not change the result: the verdict is still the success verdict with
`valid = true`, the failure surfacing only as the logged warning; the
verdict-and-state part of the outcome is identical whatever the
persistence collaborator returns. -/
theorem C8_persist_failure_harmless (now : Int) (nowIso newId : String)
    (license : LicenseData) (hardwareId : Option String) (msg : String)
    (h1 : license.status ≠ "suspended") (h2 : license.status ≠ "cancelled")
    (h3 : license.status ≠ "expired") (h4 : isLicenseExpired now license = false)
    (h5 : ∀ hid, hardwareId = some hid → isHardwareAllowed license hid = true)
    (h6 : isValidationLimitExceeded license = false) :
    performValidation now nowIso newId (fun _ _ => .error msg) (some license) hardwareId
      = .ok ({ valid := true
               message := "License is valid and active"
               licenseId := some license.id
               expiresAt := license.expiresAt
               features := some license.features
               usage := some license.usage },
             some (updatedHardwareList nowIso newId license hardwareId),
             some ("Failed to update usage statistics: " ++ msg)) ∧
    ∀ u₁ u₂,
      withoutWarning (performValidation now nowIso newId u₁ (some license) hardwareId)
        = withoutWarning (performValidation now nowIso newId u₂ (some license) hardwareId) := by
  refine ⟨?_, ?_⟩
  · rw [performValidation_success now nowIso newId _ license hardwareId h1 h2 h3 h4 h5 h6]
    rfl
  · intro u₁ u₂
    rw [performValidation_success now nowIso newId u₁ license hardwareId h1 h2 h3 h4 h5 h6,
      performValidation_success now nowIso newId u₂ license hardwareId h1 h2 h3 h4 h5 h6]
    rfl

/-- Witness for C8: a throwing persistence collaborator still yields the
success verdict (with the warning), and dropping the warning makes the
outcome equal to the one with a succeeding collaborator. -/
theorem C8_persist_failure_harmless_witness :
    performValidation 0 "iso" "uuid-5" (fun _ _ => .error "boom")
        (some ⟨"L4", "active", none, ["f1"], ⟨0, "", -1⟩, []⟩) (some "dev-1")
      = .ok ({ valid := true
               message := "License is valid and active"
               licenseId := some "L4"
               expiresAt := none
               features := some ["f1"]
               usage := some ⟨0, "", -1⟩ },
             some [⟨"uuid-5", "dev-1", "Unknown Device", "iso"⟩],
             some "Failed to update usage statistics: boom") ∧
    withoutWarning (performValidation 0 "iso" "uuid-5" (fun _ _ => .error "boom")
        (some ⟨"L4", "active", none, ["f1"], ⟨0, "", -1⟩, []⟩) (some "dev-1"))
      = withoutWarning (performValidation 0 "iso" "uuid-5" (fun _ _ => .ok ())
        (some ⟨"L4", "active", none, ["f1"], ⟨0, "", -1⟩, []⟩) (some "dev-1")) := by
  have h := C8_persist_failure_harmless 0 "iso" "uuid-5"
      ⟨"L4", "active", none, ["f1"], ⟨0, "", -1⟩, []⟩ (some "dev-1") "boom"
      (by decide) (by decide) (by decide) (by decide)
      (fun hid hh => by cases hh; decide) (by decide)
  exact ⟨h.1, h.2 _ _⟩

/-- Claim C3: an already-bound fingerprint is always allowed and
re-validation only refreshes that binding's `lastSeen`, leaving length
and all other fields unchanged, whatever the cap; an absent fingerprint
below the cap of 5 is appended and allowed; an absent fingerprint at or
above the cap is rejected and, once the earlier checks pass, validation
raises `HardwareLimitExceeded`. -/
theorem C3_hardware_rule (now : Int) (nowIso newId : String)
    (updateLicense : Usage → List HardwareBinding → Except String Unit)
    (license : LicenseData) (fp : String) :
    (license.hardware.any (fun hw => hw.fingerprint == fp) = true →
      isHardwareAllowed license fp = true ∧
      (updatedHardwareList nowIso newId license (some fp)).length
        = license.hardware.length ∧
      (updatedHardwareList nowIso newId license (some fp)).map
          (fun hw => (hw.id, hw.fingerprint, hw.name))
        = license.hardware.map (fun hw => (hw.id, hw.fingerprint, hw.name))) ∧
    (license.hardware.any (fun hw => hw.fingerprint == fp) = false →
      license.hardware.length < 5 →
      isHardwareAllowed license fp = true ∧
      updatedHardwareList nowIso newId license (some fp)
        = license.hardware ++ [⟨newId, fp, "Unknown Device", nowIso⟩]) ∧
    (license.hardware.any (fun hw => hw.fingerprint == fp) = false →
      5 ≤ license.hardware.length →
      isHardwareAllowed license fp = false ∧
      (license.status ≠ "suspended" → license.status ≠ "cancelled" →
       license.status ≠ "expired" → isLicenseExpired now license = false →
       performValidation now nowIso newId updateLicense (some license) (some fp)
         = .error .hardwareLimitExceeded)) := by
  refine ⟨?_, ?_, ?_⟩
  · intro hmem
    have hall : isHardwareAllowed license fp = true := by
      unfold isHardwareAllowed
      by_cases he : license.hardware.isEmpty
      · simp [he]
      · simp [he, hmem]
    exact ⟨hall, by simp [updatedHardwareList, hmem, refreshLastSeen_length],
      by simp [updatedHardwareList, hmem, refreshLastSeen_fields]⟩
  · intro hmem hlt
    refine ⟨?_, by simp [updatedHardwareList, hmem]⟩
    unfold isHardwareAllowed
    by_cases he : license.hardware.isEmpty
    · simp [he]
    · simp [he, hmem, hlt]
  · intro hmem hge
    have hempty : license.hardware.isEmpty = false := by
      cases h : license.hardware with
      | nil => rw [h] at hge; simp at hge
      | cons a l => simp [h]
    have hnall : isHardwareAllowed license fp = false := by
      unfold isHardwareAllowed
      simp [hempty, hmem]
      omega
    refine ⟨hnall, ?_⟩
    intro h1 h2 h3 h4
    simp only [performValidation]
    rw [if_neg h1, if_neg h2, if_neg (by simp [h3, h4]),
      if_pos (by simp [hardwareBlocked, hnall])]

/-- Witness for C3: re-validating a bound device keeps the list at one
binding; a 5th distinct device is appended to a 4-binding list; a 6th
distinct device against a 5-binding list raises `HardwareLimitExceeded`. -/
theorem C3_hardware_rule_witness :
    isHardwareAllowed
        ⟨"H1", "active", none, [], ⟨0, "", -1⟩, [⟨"b1", "dev-1", "n", "t0"⟩]⟩
        "dev-1" = true ∧
    (updatedHardwareList "t1" "u1"
        ⟨"H1", "active", none, [], ⟨0, "", -1⟩, [⟨"b1", "dev-1", "n", "t0"⟩]⟩
        (some "dev-1")).length = 1 ∧
    isHardwareAllowed
        ⟨"H4", "active", none, [], ⟨0, "", -1⟩,
          [⟨"b1", "dev-1", "n", "t0"⟩, ⟨"b2", "dev-2", "n", "t0"⟩,
           ⟨"b3", "dev-3", "n", "t0"⟩, ⟨"b4", "dev-4", "n", "t0"⟩]⟩
        "dev-5" = true ∧
    updatedHardwareList "t1" "u5"
        ⟨"H4", "active", none, [], ⟨0, "", -1⟩,
          [⟨"b1", "dev-1", "n", "t0"⟩, ⟨"b2", "dev-2", "n", "t0"⟩,
           ⟨"b3", "dev-3", "n", "t0"⟩, ⟨"b4", "dev-4", "n", "t0"⟩]⟩
        (some "dev-5")
      = [⟨"b1", "dev-1", "n", "t0"⟩, ⟨"b2", "dev-2", "n", "t0"⟩,
         ⟨"b3", "dev-3", "n", "t0"⟩, ⟨"b4", "dev-4", "n", "t0"⟩,
         ⟨"u5", "dev-5", "Unknown Device", "t1"⟩] ∧
    performValidation 0 "t1" "u6" (fun _ _ => .ok ())
        (some ⟨"H5", "active", none, [], ⟨0, "", -1⟩,
          [⟨"b1", "dev-1", "n", "t0"⟩, ⟨"b2", "dev-2", "n", "t0"⟩,
           ⟨"b3", "dev-3", "n", "t0"⟩, ⟨"b4", "dev-4", "n", "t0"⟩,
           ⟨"b5", "dev-5", "n", "t0"⟩]⟩)
        (some "dev-6")
      = .error .hardwareLimitExceeded := by
  have hone := (C3_hardware_rule 0 "t1" "u1" (fun _ _ => .ok ())
    ⟨"H1", "active", none, [], ⟨0, "", -1⟩, [⟨"b1", "dev-1", "n", "t0"⟩]⟩
    "dev-1").1 (by decide)
  have hfive := (C3_hardware_rule 0 "t1" "u5" (fun _ _ => .ok ())
    ⟨"H4", "active", none, [], ⟨0, "", -1⟩,
      [⟨"b1", "dev-1", "n", "t0"⟩, ⟨"b2", "dev-2", "n", "t0"⟩,
       ⟨"b3", "dev-3", "n", "t0"⟩, ⟨"b4", "dev-4", "n", "t0"⟩]⟩
    "dev-5").2.1 (by decide) (by decide)
  have hsix := (C3_hardware_rule 0 "t1" "u6" (fun _ _ => .ok ())
    ⟨"H5", "active", none, [], ⟨0, "", -1⟩,
      [⟨"b1", "dev-1", "n", "t0"⟩, ⟨"b2", "dev-2", "n", "t0"⟩,
       ⟨"b3", "dev-3", "n", "t0"⟩, ⟨"b4", "dev-4", "n", "t0"⟩,
       ⟨"b5", "dev-5", "n", "t0"⟩]⟩
    "dev-6").2.2 (by decide) (by decide)
  exact ⟨hone.1, hone.2.1, hfive.1, hfive.2,
    hsix.2 (by decide) (by decide) (by decide) (by decide)⟩

/-- Claim C7: with the default tolerance of 300 seconds a parseable
timestamp is fresh iff `|now − timestamp| ≤ 300` seconds — 299 seconds
old passes, 301 seconds old fails; `verifyTimestamp` raises a
`ValidationException` exactly when the age exceeds the tolerance, and
`verifyWebhookData` rejects a complete envelope older than five minutes
and accepts one inside the window. -/
theorem C7_freshness (parse : String → Option Int) (now : Int) (tol : Rat)
    (ts ts299 ts301 : String) (t u : Int) (wd : WebhookData)
    (hts : parse ts = some t)
    (h299 : parse ts299 = some (now - 299 * 1000))
    (h301 : parse ts301 = some (now - 301 * 1000))
    (hwd : parse wd.timestamp = some u)
    (hev : wd.event ≠ "") (hdata : wd.hasData = true) (htne : wd.timestamp ≠ "") :
    (verifyTimestamp parse 300 now ts = .ok () ↔ |now - t| ≤ 300 * 1000) ∧
    (verifyTimestamp parse tol now ts = .error .validationException ↔
      ((|now - t| : Int) : Rat) / 1000 > tol) ∧
    verifyTimestamp parse 300 now ts299 = .ok () ∧
    verifyTimestamp parse 300 now ts301 = .error .validationException ∧
    (5 * 60 * 1000 < |now - u| → verifyWebhookData parse now wd = false) ∧
    (|now - u| ≤ 5 * 60 * 1000 → verifyWebhookData parse now wd = true) := by
  have key : ∀ (s : String) (v : Int), parse s = some v → ∀ tol' : Rat,
      (verifyTimestamp parse tol' now s = .ok () ↔
        ¬(((|now - v| : Int) : Rat) / 1000 > tol')) ∧
      (verifyTimestamp parse tol' now s = .error .validationException ↔
        ((|now - v| : Int) : Rat) / 1000 > tol') := by
    intro s v hp tol'
    have hred : verifyTimestamp parse tol' now s
        = if ((|now - v| : Int) : Rat) / 1000 > tol' then .error .validationException
          else .ok () := by
      unfold verifyTimestamp
      rw [hp]
    rw [hred]
    by_cases hc : ((|now - v| : Int) : Rat) / 1000 > tol'
    · rw [if_pos hc]
      constructor
      · constructor
        · intro h; cases h
        · intro h; exact absurd hc h
      · constructor
        · intro _; exact hc
        · intro _; rfl
    · rw [if_neg hc]
      constructor
      · constructor
        · intro _; exact hc
        · intro _; rfl
      · constructor
        · intro h; cases h
        · intro h; exact absurd h hc
  have cast300 : ∀ d : Int, (((d : Int) : Rat) / 1000 > 300) ↔ 300 * 1000 < d := by
    intro d
    rw [div1000_gt_iff]
    constructor
    · intro h; exact_mod_cast h
    · intro h; exact_mod_cast h
  refine ⟨?_, (key ts t hts tol).2, ?_, ?_, ?_, ?_⟩
  · rw [(key ts t hts 300).1, cast300, not_lt]
  · rw [(key ts299 _ h299 300).1, cast300]
    have : now - (now - 299 * 1000) = 299 * 1000 := by ring
    rw [this]
    decide
  · rw [(key ts301 _ h301 300).2, cast300]
    have : now - (now - 301 * 1000) = 301 * 1000 := by ring
    rw [this]
    decide
  · intro hold
    have hred : verifyWebhookData parse now wd
        = if |now - u| > 5 * 60 * 1000 then false else true := by
      unfold verifyWebhookData
      rw [if_neg (by simp [hev, hdata, htne]), hwd]
    rw [hred, if_pos hold]
  · intro hin
    have hred : verifyWebhookData parse now wd
        = if |now - u| > 5 * 60 * 1000 then false else true := by
      unfold verifyWebhookData
      rw [if_neg (by simp [hev, hdata, htne]), hwd]
    rw [hred, if_neg (by exact not_lt.mpr hin)]

/-- Witness for C7: against the fixed parsing collaborator a timestamp 299
seconds old passes, one 301 seconds old raises, and a complete envelope
400 seconds old is rejected. -/
theorem C7_freshness_witness :
    verifyTimestamp parseFixed 300 0 "age299" = .ok () ∧
    verifyTimestamp parseFixed 300 0 "age301" = .error .validationException ∧
    verifyWebhookData parseFixed 0 ⟨"license.created", true, "age400"⟩ = false := by
  have h := C7_freshness parseFixed 0 300 "now" "age299" "age301" 0 (-(400 * 1000))
      ⟨"license.created", true, "age400"⟩ (by decide) (by decide) (by decide)
      (by decide) (by decide) rfl (by decide)
  exact ⟨h.2.2.1, h.2.2.2.1, h.2.2.2.2.1 (by decide)⟩

/-- Claim C9: an unparseable timestamp gives a `NaN` age, every comparison
with which is false, so both freshness checks treat it as fresh:
`verifyTimestamp` returns without raising for every tolerance, and
`verifyWebhookData` accepts the envelope when the other required fields
are present. -/
theorem C9_nan_timestamp_accepted (parse : String → Option Int) (tol : Rat)
    (now : Int) (wd : WebhookData)
    (hparse : parse wd.timestamp = none)
    (hev : wd.event ≠ "") (hdata : wd.hasData = true) (htne : wd.timestamp ≠ "") :
    verifyTimestamp parse tol now wd.timestamp = .ok () ∧
    verifyWebhookData parse now wd = true := by
  constructor
  · unfold verifyTimestamp
    rw [hparse]
  · unfold verifyWebhookData
    rw [if_neg (by simp [hev, hdata, htne]), hparse]

/-- Witness for C9: the literal timestamp "not-a-date". -/
theorem C9_nan_timestamp_accepted_witness :
    verifyTimestamp parseFixed 300 0 "not-a-date" = .ok () ∧
    verifyWebhookData parseFixed 0 ⟨"license.created", true, "not-a-date"⟩ = true :=
  C9_nan_timestamp_accepted parseFixed 300 0 ⟨"license.created", true, "not-a-date"⟩
    (by decide) (by decide) rfl (by decide)

/-- Claim C10: whenever the signature string hex-decodes to anything but
the 32-byte length of the expected digest — in particular the
`sha256=`-prefixed form the SDK's own signing convention produces, which
decodes to zero bytes — the free function `verifyWebhookSignature` (also
behind `WebhookHandler.verifySignature`) raises `RangeError` from
`crypto.timingSafeEqual` instead of returning `false`. -/
theorem C10_range_error (hmac : String → String → List Nat)
    (payload signature secret : String)
    (hlen : (hmac secret payload).length = 32)
    (hsig : (bufferFromHex signature).length ≠ 32) :
    verifyWebhookSignature hmac payload signature secret = .error .rangeError ∧
    handlerVerifySignature hmac secret payload signature = .error .rangeError ∧
    bufferFromHex ("sha256=" ++ createWebhookSignature hmac payload secret) = [] := by
  have hexp : (bufferFromHex (createWebhookSignature hmac payload secret)).length = 32 := by
    rw [createWebhookSignature, bufferFromHex_hexEncode_length, hlen]
  have hmain : verifyWebhookSignature hmac payload signature secret = .error .rangeError := by
    unfold verifyWebhookSignature timingSafeEqual
    rw [if_neg (by rw [hexp]; exact hsig)]
  refine ⟨hmain, hmain, ?_⟩
  have hdata : ("sha256=" ++ createWebhookSignature hmac payload secret).data
      = 's' :: 'h' :: 'a' :: '2' :: '5' :: '6' :: '=' ::
        (createWebhookSignature hmac payload secret).data := rfl
  rw [bufferFromHex, hdata]
  simp [hexDecodeAux, show hexVal 's' = none from by decide]

/-- Witness for C10: the prefixed form of the correct signature raises
`RangeError` under the concrete stand-in digest. -/
theorem C10_range_error_witness :
    verifyWebhookSignature mockHmac "p"
        ("sha256=" ++ createWebhookSignature mockHmac "p" "s") "s"
      = .error .rangeError :=
  (C10_range_error mockHmac "p"
    ("sha256=" ++ createWebhookSignature mockHmac "p" "s") "s"
    (by decide) (by decide)).1

end LicenseChain
